import Mathlib

/-!
Shallow embedding of the JTCG customer-support agent repository
(`data_processor.py`, `vector_db.py`, `handover_simple_mock.py`,
`agent_functions.py`) and proofs about the claims of its specification.

Conventions of the embedding:
* Python / JSON dynamic values are modelled by the inductive `PyVal`;
  a Python `dict` is an association list `PyDict` (keys unique in all
  data this program builds, lookup is first-match as in a dict).
* A pandas CSV row is `RowMap`: an association list from column name to
  `Option String`; `none` models a missing cell / NaN (`pd.notna` false).
  CSV cell values are modelled as the strings Python's `str()` yields.
* Fallible Python code (statements that can raise) is modelled in
  `Except String`; the string is the exception's text.
* The ChromaDB collection (an external library, out of scope of the
  repository) is modelled per its documented contract: a collection is a
  list of (id, document, metadata) entries, and `query` scores every
  document against the query with an abstract integer-valued distance
  function, keeps the ones clearing an optional threshold, and returns
  the `n_results` nearest, ranked ascending by distance.
* `json.dumps` / `json.loads` round trips of list-valued metadata fields
  are modelled as the identity on `List String`.
-/

/-- Python/JSON dynamic value. -/
inductive PyVal where
  | vbool (b : Bool)
  | vint (n : Int)
  | vstr (s : String)
  | vlist (l : List PyVal)
  | vdict (d : List (String × PyVal))
  | vnone

/-- A Python `dict` with string keys, as an association list. -/
abbrev PyDict := List (String × PyVal)

/-- Python `str()` on a value, as used by f-string interpolation.
Container renderings are never exercised by this program's data. -/
def py_str : PyVal → String
  | .vbool true => "True"
  | .vbool false => "False"
  | .vint n => toString n
  | .vstr s => s
  | .vlist _ => "[...]"
  | .vdict _ => "\x7b...\x7d"
  | .vnone => "None"

/-- `", ".join(xs)` -/
def join_comma (xs : List String) : String := String.intercalate ", " xs

/-- `list_has_pfx needle hay`: the needle char list starts the hay list
(`str.startswith`). -/
def list_has_pfx : List Char → List Char → Bool
  | [], _ => true
  | _ :: _, [] => false
  | a :: as, b :: bs => a == b && list_has_pfx as bs

/-- `list_has_sub needle hay`: the needle occurs contiguously in hay
(Python's `needle in hay`). -/
def list_has_sub (needle : List Char) : List Char → Bool
  | [] => list_has_pfx needle []
  | c :: rest => list_has_pfx needle (c :: rest) || list_has_sub needle rest

/-- Python `s.startswith(pre)`. -/
def str_starts (s pre : String) : Bool := list_has_pfx pre.data s.data

/-- Python `needle in hay` on strings. -/
def str_in (needle hay : String) : Bool :=
  list_has_sub needle.data hay.data

/-- Python `str.lower()` (per-character; exact on the ASCII/CJK data this
program handles). -/
def py_lower (s : String) : String := String.mk (s.data.map Char.toLower)

/-- Python `str.upper()` (per-character; exact on the ASCII data this
program handles). -/
def py_upper (s : String) : String := String.mk (s.data.map Char.toUpper)

/-- A pandas row: column name to cell; `none` is a missing/NaN cell. -/
abbrev RowMap := List (String × Option String)

/-- `row.get(column)` combined with the `pd.notna` test: `some v` iff the
column is present and holds a non-null value. -/
def row_get (row : RowMap) (column : String) : Option String :=
  (row.lookup column).bind id

/-- `row[column]` for a required column: raises (`Except.error`) when the
cell is absent or null (pydantic rejects a NaN for a `str` field). -/
def row_req (row : RowMap) (column : String) : Except String String :=
  match row_get row column with
  | some v => .ok v
  | none => .error ("missing required column: " ++ column)

/-- `data_processor.KnowledgeItem` (pydantic model). -/
structure KnowledgeItem where
  id : String
  title : String
  content : String
  url_label : String := ""
  url_href : String := ""
  image_url : String := ""
  tags : List String := []
deriving Repr, DecidableEq

/-- `data_processor.Product` (pydantic model). -/
structure Product where
  sku : String
  name : String
  arm_type : String := ""
  size_max_inch : String := ""
  vesa_options : List String := []
  weight_per_arm_kg : String := ""
  desk_thickness_mm : String := ""
  rotation : String := ""
  tilt : String := ""
  swivel : String := ""
  usb_hub : Bool := false
  compatibility_notes : String := ""
  url : String := ""
  image_url : String := ""
  reach_mm : String := ""
  tray_size_inch : String := ""
  includes : List String := []
deriving Repr, DecidableEq

/-- `data_processor.Order` (pydantic model); `items` is a list of loose
dict payloads, kept as parsed JSON objects. -/
structure Order where
  order_id : String
  placed_at : String
  status : String
  carrier : String := ""
  tracking : String := ""
  eta : String := ""
  items : List PyDict := []
  shipping_address : String := ""
  contact_phone : String := ""
  order_url : String := ""

namespace DataProcessor

/-- The `safe_get` helper inside `DataProcessor.load_products`: the cell's
value string when present and non-null, the default `""` otherwise. -/
def safe_get (row : RowMap) (column : String) : String :=
  (row_get row column).getD ""

/-- One iteration of the row loop of `DataProcessor.load_knowledge_base`:
collects `tags/`-prefixed columns in column order, defaults the optional
scalar cells to `""`, and requires `id`, `title`, `content`. -/
def kb_item_of_row (cols : List String) (row : RowMap) :
    Except String KnowledgeItem := do
  let tags := (cols.filter (fun c => str_starts c "tags/")).filterMap (row_get row)
  let url_label := (row_get row "urls/0/label").getD ""
  let url_href := (row_get row "urls/0/href").getD ""
  let image_url := (row_get row "images/0").getD ""
  let id ← row_req row "id"
  let title ← row_req row "title"
  let content ← row_req row "content"
  .ok { id, title, content, url_label, url_href, image_url, tags }

/-- `DataProcessor.load_knowledge_base`, over an already-parsed CSV given
as its column list and rows; a malformed row aborts the whole load. -/
def load_knowledge_base (cols : List String) (rows : List RowMap) :
    Except String (List KnowledgeItem) :=
  rows.mapM (kb_item_of_row cols)

/-- One iteration of the row loop of `DataProcessor.load_products`:
collects `specs/vesa/` and `specs/includes/` columns in column order,
applies `safe_get` string defaults, and coerces `specs/usb_hub` with
Python's `bool(str(value))` — true exactly when the cell string is
non-empty. -/
def product_of_row (cols : List String) (row : RowMap) :
    Except String Product := do
  let vesa_options :=
    (cols.filter (fun c => str_starts c "specs/vesa/")).filterMap (row_get row)
  let includes :=
    (cols.filter (fun c => str_starts c "specs/includes/")).filterMap (row_get row)
  let sku ← row_req row "sku"
  let name ← row_req row "name"
  .ok { sku, name
        arm_type := safe_get row "specs/arm_type"
        size_max_inch := safe_get row "specs/size_max_inch"
        vesa_options
        weight_per_arm_kg := safe_get row "specs/weight_per_arm_kg"
        desk_thickness_mm := safe_get row "specs/desk_thickness_mm"
        rotation := safe_get row "specs/rotation"
        tilt := safe_get row "specs/tilt"
        swivel := safe_get row "specs/swivel"
        usb_hub := safe_get row "specs/usb_hub" != ""
        compatibility_notes := safe_get row "compatibility_notes"
        url := safe_get row "url"
        image_url := safe_get row "images/0"
        reach_mm := safe_get row "specs/reach_mm"
        tray_size_inch := safe_get row "specs/tray_size_inch"
        includes }

/-- `DataProcessor.load_products`, over an already-parsed CSV. -/
def load_products (cols : List String) (rows : List RowMap) :
    Except String (List Product) :=
  rows.mapM (product_of_row cols)

/-- `order_data.get(key, "") or ""` — optional string field of an order;
a JSON `null` (or non-string junk) collapses to `""`. -/
def order_opt_str (o : PyDict) (key : String) : String :=
  match o.lookup key with
  | some (.vstr s) => s
  | _ => ""

/-- `order_data[key]` for a required string field; raises when the key is
absent or the value is not a string (pydantic `str` field). -/
def order_req_str (o : PyDict) (key : String) : Except String String :=
  match o.lookup key with
  | some (.vstr s) => .ok s
  | some _ => .error ("order field is not a string: " ++ key)
  | none => .error ("KeyError: " ++ key)

/-- `order_data["items"]`: must exist and be a list of JSON objects
(pydantic `List[Dict[str, Any]]`). -/
def order_req_items (o : PyDict) : Except String (List PyDict) :=
  match o.lookup "items" with
  | some (.vlist l) =>
      l.mapM (fun v => match v with
        | .vdict d => .ok d
        | _ => .error "order item is not a dict")
  | some _ => .error "order items is not a list"
  | none => .error "KeyError: items"

/-- One `order_data` of the inner loop of
`DataProcessor.load_orders_from_json`. -/
def parse_order (o : PyDict) : Except String Order := do
  let order_id ← order_req_str o "order_id"
  let placed_at ← order_req_str o "placed_at"
  let status ← order_req_str o "status"
  let items ← order_req_items o
  let shipping_address ← order_req_str o "shipping_address"
  let contact_phone ← order_req_str o "contact_phone"
  let order_url ← order_req_str o "order_url"
  .ok { order_id, placed_at, status
        carrier := order_opt_str o "carrier"
        tracking := order_opt_str o "tracking"
        eta := order_opt_str o "eta"
        items, shipping_address, contact_phone, order_url }

/-- `user_data["orders"]` and the inner order loop: `user_data` must be a
dict with an `"orders"` list (a non-dict raises a `TypeError`, a dict
without the key raises a `KeyError`). -/
def parse_user_orders (user_data : PyVal) : Except String (List Order) :=
  match user_data with
  | .vdict fields =>
      match fields.lookup "orders" with
      | some (.vlist os) =>
          os.mapM (fun v => match v with
            | .vdict o => parse_order o
            | _ => .error "TypeError: order entry is not a dict")
      | some _ => .error "TypeError: orders is not a list"
      | none => .error "KeyError: orders"
  | _ => .error "TypeError: user entry is not a dict"

/-- `DataProcessor.load_orders_from_json`, over the parsed JSON document:
`orders_db = orders_data.get("orders_db", orders_data)`, then one table
entry per user in document order. -/
def load_orders_from_json (orders_data : PyVal) :
    Except String (List (String × List Order)) :=
  match orders_data with
  | .vdict top =>
      let orders_db :=
        match top.lookup "orders_db" with
        | some v => v
        | none => PyVal.vdict top
      match orders_db with
      | .vdict users =>
          users.mapM (fun p => do
            let os ← parse_user_orders p.2
            .ok (p.1, os))
      | _ => .error "AttributeError: orders_db has no .items()"
  | _ => .error "AttributeError: document has no .get()"

/-- `DataProcessor.get_knowledge_by_id`: first item with a matching id. -/
def get_knowledge_by_id (kb : List KnowledgeItem) (knowledge_id : String) :
    Option KnowledgeItem :=
  kb.find? (fun item => item.id == knowledge_id)

/-- `DataProcessor.get_orders_by_user_id`: `orders_db.get(user_id, [])`. -/
def get_orders_by_user_id (orders_db : List (String × List Order))
    (user_id : String) : List Order :=
  (orders_db.lookup user_id).getD []

/-- `DataProcessor.get_order_by_id`: scan all users' orders for the id. -/
def get_order_by_id (orders_db : List (String × List Order))
    (order_id : String) : Option Order :=
  orders_db.findSome? (fun p => p.2.find? (fun o => o.order_id == order_id))

end DataProcessor

namespace VectorDB

/-- One entry of a ChromaDB collection: id, document text, metadata. -/
structure ChromaEntry (α : Type) where
  eid : String
  doc : String
  meta : α

/-- Modelled from the spec: the external ChromaDB collection's `query`
(out of scope of the repository). Every stored document is scored against
the query text by an abstract distance function, entries not clearing the
index's optional internal threshold are dropped, and the `n_results`
nearest are returned ranked ascending by distance. -/
def chroma_query {α : Type} (dist : String → String → Int)
    (threshold : Option Int) (entries : List (ChromaEntry α))
    (query_text : String) (n_results : Nat) :
    List (ChromaEntry α × Int) :=
  let scored := entries.map (fun e => (e, dist query_text e.doc))
  let kept :=
    match threshold with
    | none => scored
    | some t => scored.filter (fun r => r.2 ≤ t)
  (List.insertionSort (fun a b => a.2 ≤ b.2) kept).take n_results

/-- `VectorDB._create_knowledge_document`. -/
def create_knowledge_document (item : KnowledgeItem) : String :=
  let doc_parts := ["Title: " ++ item.title,
                    "Content: " ++ item.content,
                    if item.tags ≠ [] then "Tags: " ++ join_comma item.tags else ""]
  String.intercalate " " (doc_parts.filter (fun part => part ≠ ""))

/-- `VectorDB._create_product_document`. -/
def create_product_document (product : Product) : String :=
  let doc_parts :=
    ["Name: " ++ product.name,
     "SKU: " ++ product.sku,
     "Type: " ++ product.arm_type,
     if product.size_max_inch ≠ "" then "Size: " ++ product.size_max_inch ++ " inch" else "",
     if product.vesa_options ≠ [] then "VESA: " ++ join_comma product.vesa_options else "",
     if product.weight_per_arm_kg ≠ "" then "Weight: " ++ product.weight_per_arm_kg ++ " kg" else "",
     if product.desk_thickness_mm ≠ "" then "Desk: " ++ product.desk_thickness_mm ++ " mm" else "",
     if product.compatibility_notes ≠ "" then "Notes: " ++ product.compatibility_notes else "",
     if product.includes ≠ [] then "Includes: " ++ join_comma product.includes else ""]
  String.intercalate " " (doc_parts.filter (fun part => part ≠ ""))

/-- Metadata stored with a knowledge entry (`tags` held JSON-encoded in
the real store; the encode/decode round trip is modelled as identity). -/
structure KMeta where
  id : String
  title : String
  url_label : String
  url_href : String
  image_url : String
  tags : List String
  mtype : String

/-- Metadata stored with a product entry. -/
structure PMeta where
  sku : String
  name : String
  arm_type : String
  size_max_inch : String
  vesa_options : List String
  weight_per_arm_kg : String
  desk_thickness_mm : String
  compatibility_notes : String
  url : String
  image_url : String
  includes : List String
  mtype : String

/-- `VectorDB.populate_knowledge_base`, as a function on the collection
state: skipped entirely when the collection already has ≥ 1 entry,
otherwise one add of every item's (id, document, metadata). -/
def populate_knowledge_base (knowledge_items : List KnowledgeItem)
    (st : List (ChromaEntry KMeta)) : List (ChromaEntry KMeta) :=
  if st.length > 0 then st
  else
    st ++ knowledge_items.map (fun item =>
      { eid := item.id
        doc := create_knowledge_document item
        meta := { id := item.id, title := item.title,
                  url_label := item.url_label, url_href := item.url_href,
                  image_url := item.image_url, tags := item.tags,
                  mtype := "knowledge" } })

/-- `VectorDB.populate_products`, as a function on the collection state. -/
def populate_products (products : List Product)
    (st : List (ChromaEntry PMeta)) : List (ChromaEntry PMeta) :=
  if st.length > 0 then st
  else
    st ++ products.map (fun product =>
      { eid := product.sku
        doc := create_product_document product
        meta := { sku := product.sku, name := product.name,
                  arm_type := product.arm_type,
                  size_max_inch := product.size_max_inch,
                  vesa_options := product.vesa_options,
                  weight_per_arm_kg := product.weight_per_arm_kg,
                  desk_thickness_mm := product.desk_thickness_mm,
                  compatibility_notes := product.compatibility_notes,
                  url := product.url, image_url := product.image_url,
                  includes := product.includes,
                  mtype := "product" } })

/-- One formatted result of `VectorDB.search_knowledge`. -/
structure KResult where
  id : String
  title : String
  url_label : String
  url_href : String
  image_url : String
  tags : List String
  distance : Int
  document : String

/-- One formatted result of `VectorDB.search_products`. -/
structure PResult where
  sku : String
  name : String
  arm_type : String
  size_max_inch : String
  vesa_options : List String
  weight_per_arm_kg : String
  desk_thickness_mm : String
  compatibility_notes : String
  url : String
  image_url : String
  includes : List String
  distance : Int
  document : String

/-- `VectorDB.search_knowledge`: query the knowledge collection and
format each hit's metadata, distance and document, in ranked order
(an empty query result yields the empty list, not an error). -/
def search_knowledge (dist : String → String → Int) (threshold : Option Int)
    (entries : List (ChromaEntry KMeta)) (query : String) (n_results : Nat) :
    List KResult :=
  (chroma_query dist threshold entries query n_results).map (fun r =>
    { id := r.1.meta.id, title := r.1.meta.title,
      url_label := r.1.meta.url_label, url_href := r.1.meta.url_href,
      image_url := r.1.meta.image_url, tags := r.1.meta.tags,
      distance := r.2, document := r.1.doc })

/-- `VectorDB.search_products`: query the products collection and format
each hit. -/
def search_products (dist : String → String → Int) (threshold : Option Int)
    (entries : List (ChromaEntry PMeta)) (query : String) (n_results : Nat) :
    List PResult :=
  (chroma_query dist threshold entries query n_results).map (fun r =>
    { sku := r.1.meta.sku, name := r.1.meta.name,
      arm_type := r.1.meta.arm_type, size_max_inch := r.1.meta.size_max_inch,
      vesa_options := r.1.meta.vesa_options,
      weight_per_arm_kg := r.1.meta.weight_per_arm_kg,
      desk_thickness_mm := r.1.meta.desk_thickness_mm,
      compatibility_notes := r.1.meta.compatibility_notes,
      url := r.1.meta.url, image_url := r.1.meta.image_url,
      includes := r.1.meta.includes,
      distance := r.2, document := r.1.doc })

end VectorDB

/-- A character the regex class `[^\s@]` accepts. -/
def no_ws_at (c : Char) : Bool := !(c.isWhitespace || c == '@')

/-- The domain tail of the email pattern contains a `.` with at least one
character on each side. -/
def has_mid_dot (r : List Char) : Bool :=
  (List.range r.length).any (fun i =>
    decide (0 < i) && decide (i + 1 < r.length) && (r.getD i ' ' == '.'))

/-- Core of the pattern `^[^\s@]+@[^\s@]+\.[^\s@]+$` on a char list: a
non-empty whitespace-free local part, the first `@`, then a tail without
whitespace or `@` containing an interior dot. -/
def email_core (l : List Char) : Bool :=
  let loc := l.takeWhile (fun c => c ≠ '@')
  match l.dropWhile (fun c => c ≠ '@') with
  | [] => false
  | _ :: rest =>
      loc ≠ [] && loc.all no_ws_at && rest ≠ [] &&
        rest.all no_ws_at && has_mid_dot rest

/-- `EMAIL_RE.match(s)` for `EMAIL_RE = ^[^\s@]+@[^\s@]+\.[^\s@]+$`
(`agent_functions.py` compiles the identical pattern); Python's `$` also
matches just before one trailing newline. -/
def email_re_match (s : String) : Bool :=
  email_core s.data ||
    (match s.data.getLast? with
     | some c => c == '\n' && email_core s.data.dropLast
     | none => false)

/-- `handover_simple_mock._mock_api_call`: fails when forced, or when the
payload's conversation id uppercases to a string starting with `FAIL`. -/
def mock_api_call (payload : PyDict) (simulate_fail : Bool) : Bool :=
  if simulate_fail then false
  else
    let cid :=
      match payload.lookup "conversation_id" with
      | some (.vstr s) => s
      | _ => ""
    if list_has_pfx "FAIL".data (py_upper cid).data then false else true

/-- `handover_simple_mock.handover_simple`: email gate, then the mock
transport call; the summary is truncated to 500 characters. -/
def handover_simple (conversation_id : String) (email : String)
    (summary : String) (simulate_fail : Bool) : String :=
  if email_re_match email = false then
    "轉接真人時發生錯誤，請聯繫技術團隊協助"
  else
    let payload : PyDict :=
      [("conversation_id", .vstr conversation_id),
       ("email", .vstr email),
       ("summary", .vstr (summary.take 500))]
    if mock_api_call payload simulate_fail then "已為您轉接真人"
    else "轉接真人時發生錯誤，請聯繫技術團隊協助"

namespace JTCGAgentFunctions

open DataProcessor VectorDB

/-- The `except` dict of `JTCGAgentFunctions.search_knowledge_base`. -/
def sk_error_dict (e : String) : PyDict :=
  [("success", .vbool false),
   ("message", .vstr "搜尋時發生錯誤，請稍後再試或聯繫客服團隊。"),
   ("error", .vstr e),
   ("results", .vlist [])]

/-- One formatted item of `search_knowledge_base`'s result list. -/
def format_k_result (r : KResult) : PyVal :=
  .vdict [("title", .vstr r.title),
          ("relevance_score", .vint (1 - r.distance)),
          ("url", .vstr (if r.url_href ≠ "" then r.url_href else "")),
          ("url_label", .vstr (if r.url_label ≠ "" then r.url_label else "")),
          ("image_url", .vstr (if r.image_url ≠ "" then r.image_url else "")),
          ("tags", .vlist (r.tags.map PyVal.vstr))]

/-- The `response_parts` built from the best match's knowledge item. -/
def kb_response_parts (kb_item : Option KnowledgeItem) : List String :=
  match kb_item with
  | none => []
  | some item =>
      [item.content]
      ++ (if item.url_href ≠ "" then
            ["\n\n詳細資訊請參考：[" ++
               (if item.url_label ≠ "" then item.url_label else "詳細說明") ++
               "](" ++ item.url_href ++ ")"]
          else [])
      ++ (if item.image_url ≠ "" then ["\n\n相關圖片：" ++ item.image_url] else [])

/-- `JTCGAgentFunctions.search_knowledge_base`; the vector search (the
fallible part of the `try` body) is the `search_fn` parameter, called on
the query and `max_results`. -/
def search_knowledge_base
    (search_fn : String → Nat → Except String (List KResult))
    (knowledge_base : List KnowledgeItem)
    (query : String) (max_results : Nat) : PyDict :=
  match search_fn query max_results with
  | .error e => sk_error_dict e
  | .ok results =>
    match results with
    | [] =>
        [("success", .vbool false),
         ("message", .vstr "很抱歉，目前無法找到相關的資訊。建議您聯繫我們的客服團隊以獲得進一步協助。"),
         ("results", .vlist [])]
    | best :: _ =>
        let formatted_results := results.map format_k_result
        let kb_item := get_knowledge_by_id knowledge_base best.id
        [("success", .vbool true),
         ("message", .vstr (String.join (kb_response_parts kb_item))),
         ("results", .vlist formatted_results),
         ("primary_source",
          .vdict [("title", .vstr best.title),
                  ("url", .vstr best.url_href),
                  ("url_label", .vstr best.url_label)])]

/-- The `except` dict of `JTCGAgentFunctions.search_products`. -/
def sp_error_dict (e : String) : PyDict :=
  [("success", .vbool false),
   ("message", .vstr "產品搜尋時發生錯誤，請稍後再試或聯繫客服團隊。"),
   ("error", .vstr e),
   ("products", .vlist [])]

/-- The query enhanced with the truthy entries of the optional
specifications mapping, as `"key: value"` fragments. -/
def enhanced_query_of (query : String)
    (specifications : Option (List (String × String))) : String :=
  match specifications with
  | none => query
  | some specs =>
      let spec_parts := (specs.filter (fun p => p.2 ≠ "")).map
        (fun p => p.1 ++ ": " ++ p.2)
      if spec_parts ≠ [] then
        query ++ " " ++ String.intercalate " " spec_parts
      else query

/-- The `product_info` record `search_products` builds per result. -/
structure ProdInfo where
  sku : String
  name : String
  arm_type : String
  max_size : String
  vesa_options : List String
  weight_capacity : String
  desk_thickness : String
  compatibility_notes : String
  url : String
  image_url : String
  includes : List String
  relevance_score : Int

/-- `product_info` from one vector search result. -/
def prod_info_of (r : PResult) : ProdInfo :=
  { sku := r.sku, name := r.name, arm_type := r.arm_type,
    max_size := r.size_max_inch, vesa_options := r.vesa_options,
    weight_capacity := r.weight_per_arm_kg,
    desk_thickness := r.desk_thickness_mm,
    compatibility_notes := r.compatibility_notes,
    url := r.url, image_url := r.image_url, includes := r.includes,
    relevance_score := 1 - r.distance }

/-- `product_info` as the dict placed in the `products` payload. -/
def prod_info_py (p : ProdInfo) : PyVal :=
  .vdict [("sku", .vstr p.sku), ("name", .vstr p.name),
          ("arm_type", .vstr p.arm_type), ("max_size", .vstr p.max_size),
          ("vesa_options", .vlist (p.vesa_options.map PyVal.vstr)),
          ("weight_capacity", .vstr p.weight_capacity),
          ("desk_thickness", .vstr p.desk_thickness),
          ("compatibility_notes", .vstr p.compatibility_notes),
          ("url", .vstr p.url), ("image_url", .vstr p.image_url),
          ("includes", .vlist (p.includes.map PyVal.vstr)),
          ("relevance_score", .vint p.relevance_score)]

/-- The response text block for one of the top-3 recommended products. -/
def render_product (i : Nat) (p : ProdInfo) : String :=
  let specs :=
    (if p.max_size ≠ "" then ["支援至 " ++ p.max_size ++ " 吋"] else [])
    ++ (if p.vesa_options ≠ [] then ["VESA: " ++ join_comma p.vesa_options] else [])
    ++ (if p.weight_capacity ≠ "" then ["承重: " ++ p.weight_capacity ++ " kg"] else [])
  "\n" ++ toString i ++ ". **" ++ p.name ++ "** (" ++ p.sku ++ ")"
  ++ (if specs ≠ [] then " - " ++ join_comma specs else "")
  ++ (if p.compatibility_notes ≠ "" then "\n   注意事項: " ++ p.compatibility_notes else "")
  ++ (if p.url ≠ "" then "\n   [查看詳情](" ++ p.url ++ ")" else "")
  ++ "\n"

/-- The enumerated rendering loop over the top products, 1-indexed. -/
def render_products : Nat → List ProdInfo → String
  | _, [] => ""
  | i, p :: rest => render_product i p ++ render_products (i + 1) rest

/-- `JTCGAgentFunctions.search_products`; the vector search is the
`search_fn` parameter, called on the enhanced query. -/
def search_products
    (search_fn : String → Nat → Except String (List PResult))
    (query : String) (specifications : Option (List (String × String)))
    (max_results : Nat) : PyDict :=
  let enhanced_query := enhanced_query_of query specifications
  match search_fn enhanced_query max_results with
  | .error e => sp_error_dict e
  | .ok results =>
    match results with
    | [] =>
        [("success", .vbool false),
         ("message", .vstr "很抱歉，沒有找到符合您需求的產品。請提供更多資訊，如螢幕尺寸、VESA規格或使用情境，以便我為您推薦合適的產品。"),
         ("products", .vlist [])]
    | _ :: _ =>
        let formatted_products := results.map prod_info_of
        let message :=
          "以下是為您推薦的產品：\n"
          ++ render_products 1 (formatted_products.take 3)
          ++ "\n如需更詳細的建議，請告訴我您的螢幕尺寸、桌面厚度或特殊需求。"
        [("success", .vbool true),
         ("message", .vstr message),
         ("products", .vlist (formatted_products.map prod_info_py)),
         ("total_found", .vint results.length)]

/-- The localized status label table (`.get(status, status)`). -/
def status_display (status : String) : String :=
  if status = "processing" then "處理中"
  else if status = "shipped" then "已出貨"
  else if status = "in_transit" then "運送中"
  else if status = "delivered" then "已送達"
  else status

/-- `item['name']` inside `', '.join(...)`: raises on a missing key or a
non-string value. -/
def get_item_name (item : PyDict) : Except String String :=
  match item.lookup "name" with
  | some (.vstr s) => .ok s
  | some _ => .error "TypeError: sequence item: expected str instance"
  | none => .error "KeyError: name"

/-- `item[key]` inside an f-string: raises only on a missing key. -/
def get_item_field (item : PyDict) (key : String) : Except String PyVal :=
  match item.lookup key with
  | some v => .ok v
  | none => .error ("KeyError: " ++ key)

/-- One order of the `orders` payload of `lookup_user_orders`. -/
def order_to_py (o : Order) : PyVal :=
  .vdict [("order_id", .vstr o.order_id), ("placed_at", .vstr o.placed_at),
          ("status", .vstr o.status), ("carrier", .vstr o.carrier),
          ("tracking", .vstr o.tracking), ("eta", .vstr o.eta),
          ("items", .vlist (o.items.map PyVal.vdict)),
          ("shipping_address", .vstr o.shipping_address),
          ("contact_phone", .vstr o.contact_phone),
          ("order_url", .vstr o.order_url)]

/-- The item-name list comprehension of `lookup_user_orders`: collects
`item['name']` for every item, raising on the first bad item. -/
def get_item_names : List PyDict → Except String (List String)
  | [] => .ok []
  | it :: rest => do
      let s ← get_item_name it
      let tail ← get_item_names rest
      .ok (s :: tail)

/-- The response text block for one order of `lookup_user_orders`
(1-indexed); joining the item names can raise. -/
def render_user_order (i : Nat) (o : Order) : Except String String := do
  let names ← get_item_names o.items
  .ok ("\n" ++ toString i ++ ". 訂單 " ++ o.order_id
    ++ " - 狀態: " ++ status_display o.status
    ++ (if o.carrier ≠ "" ∧ o.tracking ≠ "" then
          " - 物流: " ++ o.carrier ++ " (" ++ o.tracking ++ ")"
        else "")
    ++ (if o.eta ≠ "" then " - 預計到貨: " ++ o.eta else "")
    ++ " - 商品: " ++ join_comma names
    ++ (if o.order_url ≠ "" then " - [查看訂單詳情](" ++ o.order_url ++ ")" else "")
    ++ "\n")

/-- The enumerated rendering loop over a user's orders. -/
def render_user_orders : Nat → List Order → Except String String
  | _, [] => .ok ""
  | i, o :: rest => do
      let s ← render_user_order i o
      let tail ← render_user_orders (i + 1) rest
      .ok (s ++ tail)

/-- The `try` body of `JTCGAgentFunctions.lookup_user_orders`. -/
def lookup_user_orders_body (orders_db : List (String × List Order))
    (user_id : String) : Except String PyDict :=
  match get_orders_by_user_id orders_db user_id with
  | [] =>
      .ok [("success", .vbool false),
           ("message", .vstr ("查無用戶 " ++ user_id ++ " 的訂單記錄。請確認用戶ID是否正確，或聯繫客服協助查詢。")),
           ("orders", .vlist [])]
  | o :: os => do
      let rendered ← render_user_orders 1 (o :: os)
      let message :=
        "找到用戶 " ++ user_id ++ " 的 " ++ toString (o :: os).length
        ++ " 筆訂單：\n" ++ rendered
        ++ "如需查詢特定訂單的詳細資訊，請提供訂單編號。"
      .ok [("success", .vbool true),
           ("message", .vstr message),
           ("orders", .vlist ((o :: os).map order_to_py)),
           ("user_id", .vstr user_id),
           ("total_orders", .vint (o :: os).length)]

/-- `JTCGAgentFunctions.lookup_user_orders`: the body wrapped in the
handler-boundary `except`. -/
def lookup_user_orders (orders_db : List (String × List Order))
    (user_id : String) : PyDict :=
  match lookup_user_orders_body orders_db user_id with
  | .ok d => d
  | .error e =>
      [("success", .vbool false),
       ("message", .vstr "查詢訂單時發生錯誤，請稍後再試或聯繫客服團隊。"),
       ("error", .vstr e),
       ("orders", .vlist [])]

/-- One `- name xqty` line of `lookup_order_details`' response. -/
def render_order_item (item : PyDict) : Except String String := do
  let name ← get_item_field item "name"
  let qty ← get_item_field item "qty"
  .ok ("- " ++ py_str name ++ " x" ++ py_str qty)

/-- The per-item rendering loop of `lookup_order_details`. -/
def render_order_items : List PyDict → Except String (List String)
  | [] => .ok []
  | it :: rest => do
      let s ← render_order_item it
      let tail ← render_order_items rest
      .ok (s :: tail)

/-- The `order` payload of `lookup_order_details`. -/
def order_detail_py (o : Order) : PyVal :=
  .vdict [("order_id", .vstr o.order_id), ("status", .vstr o.status),
          ("placed_at", .vstr o.placed_at), ("carrier", .vstr o.carrier),
          ("tracking", .vstr o.tracking), ("eta", .vstr o.eta),
          ("items", .vlist (o.items.map PyVal.vdict)),
          ("shipping_address", .vstr o.shipping_address),
          ("contact_phone", .vstr o.contact_phone),
          ("order_url", .vstr o.order_url)]

/-- The `try` body of `JTCGAgentFunctions.lookup_order_details`. -/
def lookup_order_details_body (orders_db : List (String × List Order))
    (order_id : String) : Except String PyDict :=
  match get_order_by_id orders_db order_id with
  | none =>
      .ok [("success", .vbool false),
           ("message", .vstr ("查無訂單 " ++ order_id ++ "。請確認訂單編號是否正確，或聯繫客服協助查詢。")),
           ("order", .vnone)]
  | some o => do
      let item_lines ← render_order_items o.items
      let parts :=
        ["訂單 " ++ o.order_id ++ " 詳細資訊：\n",
         "狀態: " ++ status_display o.status,
         "下單時間: " ++ o.placed_at]
        ++ (if o.carrier ≠ "" then ["物流商: " ++ o.carrier] else [])
        ++ (if o.tracking ≠ "" then ["追蹤號碼: " ++ o.tracking] else [])
        ++ (if o.eta ≠ "" then ["預計到貨: " ++ o.eta] else [])
        ++ ["\n購買商品:"]
        ++ item_lines
        ++ ["\n配送地址: " ++ o.shipping_address,
            "聯絡電話: " ++ o.contact_phone]
        ++ (if o.order_url ≠ "" then ["\n[查看完整訂單](" ++ o.order_url ++ ")"] else [])
      .ok [("success", .vbool true),
           ("message", .vstr (String.intercalate "\n" parts)),
           ("order", order_detail_py o)]

/-- `JTCGAgentFunctions.lookup_order_details`: the body wrapped in the
handler-boundary `except`. -/
def lookup_order_details (orders_db : List (String × List Order))
    (order_id : String) : PyDict :=
  match lookup_order_details_body orders_db order_id with
  | .ok d => d
  | .error e =>
      [("success", .vbool false),
       ("message", .vstr "查詢訂單詳情時發生錯誤，請稍後再試或聯繫客服團隊。"),
       ("error", .vstr e),
       ("order", .vnone)]

/-- The conversation id resolved at the top of `handover_to_human`: a
falsy (absent or empty) id is replaced by `JTCG-CHAT-` plus the first 8
characters of a fresh `uuid4` string. -/
def resolve_conversation_id (fresh_uuid : String)
    (conversation_id : Option String) : String :=
  match conversation_id with
  | none => "JTCG-CHAT-" ++ fresh_uuid.take 8
  | some c => if c = "" then "JTCG-CHAT-" ++ fresh_uuid.take 8 else c

/-- `JTCGAgentFunctions.handover_to_human`; the transport call
(`handover_simple`, the fallible part of the `try` body) is the
`transport` parameter. -/
def handover_to_human
    (transport : String → String → String → Except String String)
    (fresh_uuid : String) (email : String) (conversation_summary : String)
    (conversation_id : Option String) : PyDict :=
  let cid := resolve_conversation_id fresh_uuid conversation_id
  if email_re_match email = false then
    [("success", .vbool false),
     ("message", .vstr "請提供有效的Email地址以便我們為您轉接真人客服。"),
     ("conversation_id", .vstr cid)]
  else
    match transport cid email conversation_summary with
    | .ok result =>
        if result = "已為您轉接真人" then
          [("success", .vbool true),
           ("message", .vstr ("已為您轉接真人客服，請稍候。您的服務案件編號是: " ++ cid)),
           ("conversation_id", .vstr cid),
           ("email", .vstr email)]
        else
          [("success", .vbool false),
           ("message", .vstr result),
           ("conversation_id", .vstr cid)]
    | .error e =>
        [("success", .vbool false),
         ("message", .vstr "轉接真人客服時發生錯誤，請聯繫技術團隊協助。"),
         ("error", .vstr e),
         ("conversation_id", .vstr (if cid ≠ "" then cid else "ERROR"))]

/-- The order-related keyword set of `detect_intent`. -/
def order_keywords : List String :=
  ["訂單", "物流", "追蹤", "配送", "出貨", "到貨",
   "order", "tracking", "shipping", "delivery"]

/-- The product-search keyword set of `detect_intent`. -/
def product_keywords : List String :=
  ["產品", "臂架", "支架", "螢幕", "推薦", "規格", "尺寸",
   "vesa", "arm", "monitor", "product"]

/-- The human-handover keyword set of `detect_intent`. -/
def handover_keywords : List String :=
  ["真人", "客服", "人工", "轉接", "協助",
   "human", "help", "support", "agent"]

/-- The FAQ keyword set of `detect_intent`. -/
def faq_keywords : List String :=
  ["政策", "退換貨", "保固", "發票", "運費", "付款",
   "policy", "return", "warranty", "payment"]

/-- `JTCGAgentFunctions.detect_intent`: lowercase, then the four keyword
sets in priority order, first substring hit wins, default `general`. -/
def detect_intent (user_message : String) : String :=
  let message_lower := py_lower user_message
  if order_keywords.any (fun k => str_in k message_lower) then "order"
  else if product_keywords.any (fun k => str_in k message_lower) then "product"
  else if handover_keywords.any (fun k => str_in k message_lower) then "handover"
  else if faq_keywords.any (fun k => str_in k message_lower) then "faq"
  else "general"

/-- Some keyword of the order set occurs in the lowercased message. -/
def order_hit (m : String) : Bool :=
  order_keywords.any (fun k => str_in k (py_lower m))

/-- Some keyword of the product set occurs in the lowercased message. -/
def product_hit (m : String) : Bool :=
  product_keywords.any (fun k => str_in k (py_lower m))

/-- Some keyword of the handover set occurs in the lowercased message. -/
def handover_hit (m : String) : Bool :=
  handover_keywords.any (fun k => str_in k (py_lower m))

/-- Some keyword of the FAQ set occurs in the lowercased message. -/
def faq_hit (m : String) : Bool :=
  faq_keywords.any (fun k => str_in k (py_lower m))

end JTCGAgentFunctions

/-- A concrete seeded order used to instantiate theorems. -/
def sample_order : Order :=
  { order_id := "o1", placed_at := "t", status := "shipped",
    items := [[("name", PyVal.vstr "arm"), ("qty", PyVal.vint 2)]] }

/-- Unfolds a successful `product_of_row` into the record it builds. -/
lemma product_of_row_ok {cols : List String} {row : RowMap} {p : Product}
    (h : DataProcessor.product_of_row cols row = .ok p) :
    p = { sku := (row_get row "sku").getD "", name := (row_get row "name").getD ""
          arm_type := DataProcessor.safe_get row "specs/arm_type"
          size_max_inch := DataProcessor.safe_get row "specs/size_max_inch"
          vesa_options := (cols.filter (fun c => str_starts c "specs/vesa/")).filterMap (row_get row)
          weight_per_arm_kg := DataProcessor.safe_get row "specs/weight_per_arm_kg"
          desk_thickness_mm := DataProcessor.safe_get row "specs/desk_thickness_mm"
          rotation := DataProcessor.safe_get row "specs/rotation"
          tilt := DataProcessor.safe_get row "specs/tilt"
          swivel := DataProcessor.safe_get row "specs/swivel"
          usb_hub := DataProcessor.safe_get row "specs/usb_hub" != ""
          compatibility_notes := DataProcessor.safe_get row "compatibility_notes"
          url := DataProcessor.safe_get row "url"
          image_url := DataProcessor.safe_get row "images/0"
          reach_mm := DataProcessor.safe_get row "specs/reach_mm"
          tray_size_inch := DataProcessor.safe_get row "specs/tray_size_inch"
          includes := (cols.filter (fun c => str_starts c "specs/includes/")).filterMap (row_get row) } := by
  cases hs : row_get row "sku" with
  | none =>
      simp [DataProcessor.product_of_row, row_req, hs, Bind.bind, Except.bind] at h
  | some sku =>
    cases hn : row_get row "name" with
    | none =>
        simp [DataProcessor.product_of_row, row_req, hs, hn, Bind.bind, Except.bind] at h
    | some name =>
        simp only [DataProcessor.product_of_row, row_req, hs, hn, Bind.bind,
          Except.bind, Except.ok.injEq] at h
        subst h
        simp [hs, hn]

/-- Unfolds a successful `kb_item_of_row` into the record it builds. -/
lemma kb_item_of_row_ok {cols : List String} {row : RowMap} {item : KnowledgeItem}
    (h : DataProcessor.kb_item_of_row cols row = .ok item) :
    item = { id := (row_get row "id").getD "", title := (row_get row "title").getD ""
             content := (row_get row "content").getD ""
             url_label := (row_get row "urls/0/label").getD ""
             url_href := (row_get row "urls/0/href").getD ""
             image_url := (row_get row "images/0").getD ""
             tags := (cols.filter (fun c => str_starts c "tags/")).filterMap (row_get row) } := by
  cases h1 : row_get row "id" with
  | none =>
      simp [DataProcessor.kb_item_of_row, row_req, h1, Bind.bind, Except.bind] at h
  | some i =>
    cases h2 : row_get row "title" with
    | none =>
        simp [DataProcessor.kb_item_of_row, row_req, h1, h2, Bind.bind, Except.bind] at h
    | some t =>
      cases h3 : row_get row "content" with
      | none =>
          simp [DataProcessor.kb_item_of_row, row_req, h1, h2, h3, Bind.bind, Except.bind] at h
      | some c =>
          simp only [DataProcessor.kb_item_of_row, row_req, h1, h2, h3, Bind.bind,
            Except.bind, Except.ok.injEq] at h
          subst h
          simp [h1, h2, h3]

/-- C3: the normalizers (`load_knowledge_base` / `load_products`) map a
missing or null scalar cell to its declared default — `""` for string
fields, `false` for `usb_hub` — never to a null marker, and collect all
columns sharing a declared list prefix (`tags/`, `specs/vesa/`,
`specs/includes/`) in column order into an ordered list field, empty
when no such column is present. -/
theorem claim_C3 : ∀ (cols : List String) (row : RowMap)
    (item : KnowledgeItem) (p : Product),
    (DataProcessor.kb_item_of_row cols row = .ok item →
        (row_get row "urls/0/label" = none → item.url_label = "")
      ∧ (row_get row "urls/0/href" = none → item.url_href = "")
      ∧ (row_get row "images/0" = none → item.image_url = "")
      ∧ item.tags = (cols.filter (fun c => str_starts c "tags/")).filterMap (row_get row)
      ∧ ((∀ c ∈ cols, str_starts c "tags/" = false) → item.tags = []))
  ∧ (DataProcessor.product_of_row cols row = .ok p →
        (row_get row "specs/arm_type" = none → p.arm_type = "")
      ∧ (row_get row "specs/size_max_inch" = none → p.size_max_inch = "")
      ∧ (row_get row "specs/weight_per_arm_kg" = none → p.weight_per_arm_kg = "")
      ∧ (row_get row "specs/desk_thickness_mm" = none → p.desk_thickness_mm = "")
      ∧ (row_get row "specs/rotation" = none → p.rotation = "")
      ∧ (row_get row "specs/tilt" = none → p.tilt = "")
      ∧ (row_get row "specs/swivel" = none → p.swivel = "")
      ∧ (row_get row "specs/usb_hub" = none → p.usb_hub = false)
      ∧ (row_get row "compatibility_notes" = none → p.compatibility_notes = "")
      ∧ (row_get row "url" = none → p.url = "")
      ∧ (row_get row "images/0" = none → p.image_url = "")
      ∧ (row_get row "specs/reach_mm" = none → p.reach_mm = "")
      ∧ (row_get row "specs/tray_size_inch" = none → p.tray_size_inch = "")
      ∧ p.vesa_options = (cols.filter (fun c => str_starts c "specs/vesa/")).filterMap (row_get row)
      ∧ p.includes = (cols.filter (fun c => str_starts c "specs/includes/")).filterMap (row_get row)
      ∧ ((∀ c ∈ cols, str_starts c "specs/vesa/" = false) → p.vesa_options = [])
      ∧ ((∀ c ∈ cols, str_starts c "specs/includes/" = false) → p.includes = [])) := by
  intro cols row item p
  constructor
  · intro h
    have he := kb_item_of_row_ok h
    subst he
    refine ⟨fun h1 => by simp [h1], fun h2 => by simp [h2], fun h3 => by simp [h3],
      rfl, ?_⟩
    intro hall
    show (cols.filter (fun c => str_starts c "tags/")).filterMap (row_get row) = []
    rw [List.filter_eq_nil_iff.mpr (by intro c hc; simp [hall c hc])]
    rfl
  · intro h
    have he := product_of_row_ok h
    subst he
    refine ⟨fun h1 => by simp [DataProcessor.safe_get, h1],
            fun h1 => by simp [DataProcessor.safe_get, h1],
            fun h1 => by simp [DataProcessor.safe_get, h1],
            fun h1 => by simp [DataProcessor.safe_get, h1],
            fun h1 => by simp [DataProcessor.safe_get, h1],
            fun h1 => by simp [DataProcessor.safe_get, h1],
            fun h1 => by simp [DataProcessor.safe_get, h1],
            fun h1 => by simp [DataProcessor.safe_get, h1],
            fun h1 => by simp [DataProcessor.safe_get, h1],
            fun h1 => by simp [DataProcessor.safe_get, h1],
            fun h1 => by simp [DataProcessor.safe_get, h1],
            fun h1 => by simp [DataProcessor.safe_get, h1],
            fun h1 => by simp [DataProcessor.safe_get, h1],
            rfl, rfl, ?_, ?_⟩
    · intro hall
      show (cols.filter (fun c => str_starts c "specs/vesa/")).filterMap (row_get row) = []
      rw [List.filter_eq_nil_iff.mpr (by intro c hc; simp [hall c hc])]
      rfl
    · intro hall
      show (cols.filter (fun c => str_starts c "specs/includes/")).filterMap (row_get row) = []
      rw [List.filter_eq_nil_iff.mpr (by intro c hc; simp [hall c hc])]
      rfl

/-- Witness for C3 at a concrete knowledge row and product row with the
optional cells absent and no list-prefixed columns. -/
theorem claim_C3_witness :
    (⟨"i", "t", "c", "", "", "", []⟩ : KnowledgeItem).tags = []
  ∧ (⟨"s", "n", "", "", [], "", "", "", "", "", false, "", "", "", "", "", []⟩ : Product).arm_type = "" :=
  ⟨((claim_C3 ["id", "title", "content"]
      [("id", some "i"), ("title", some "t"), ("content", some "c")]
      ⟨"i", "t", "c", "", "", "", []⟩
      ⟨"s", "n", "", "", [], "", "", "", "", "", false, "", "", "", "", "", []⟩).1
      (by rfl)).2.2.2.2 (by decide),
   (((claim_C3 ["sku", "name"]
      [("sku", some "s"), ("name", some "n")]
      ⟨"i", "t", "c", "", "", "", []⟩
      ⟨"s", "n", "", "", [], "", "", "", "", "", false, "", "", "", "", "", []⟩).2
      (by rfl)).1 (by decide))⟩

/-- C10: `load_products` string-coerces the `specs/usb_hub` cell before
the boolean conversion, so any present non-empty cell value — including
the strings `"false"`, `"False"` and `"0"` — yields `usb_hub = true`;
`usb_hub` is `false` only when the cell is missing, null, or the empty
string. -/
theorem claim_C10 : ∀ (cols : List String) (row : RowMap) (p : Product),
    DataProcessor.product_of_row cols row = .ok p →
      (p.usb_hub = true ↔ ∃ v, row_get row "specs/usb_hub" = some v ∧ v ≠ "")
    ∧ (row_get row "specs/usb_hub" = some "false" → p.usb_hub = true)
    ∧ (row_get row "specs/usb_hub" = some "False" → p.usb_hub = true)
    ∧ (row_get row "specs/usb_hub" = some "0" → p.usb_hub = true)
    ∧ (row_get row "specs/usb_hub" = none → p.usb_hub = false)
    ∧ (row_get row "specs/usb_hub" = some "" → p.usb_hub = false) := by
  intro cols row p h
  have he := product_of_row_ok h
  subst he
  simp only [DataProcessor.safe_get]
  cases hv : row_get row "specs/usb_hub" with
  | none =>
      refine ⟨by simp, by simp [hv], by simp [hv], by simp [hv], by simp, by simp [hv]⟩
  | some v =>
      refine ⟨?_, ?_, ?_, ?_, by simp [hv], ?_⟩
      · simp only [Option.getD_some, bne_iff_ne, ne_eq]
        constructor
        · intro hne; exact ⟨v, rfl, hne⟩
        · rintro ⟨w, hw, hne⟩
          cases hw
          exact hne
      · intro hw
        injection hw with hvv
        subst hvv
        decide
      · intro hw
        injection hw with hvv
        subst hvv
        decide
      · intro hw
        injection hw with hvv
        subst hvv
        decide
      · intro hw
        injection hw with hvv
        subst hvv
        decide

/-- Witness for C10 at a concrete row whose `specs/usb_hub` cell holds
the string `"false"`. -/
theorem claim_C10_witness :
    (⟨"s", "n", "", "", [], "", "", "", "", "", true, "", "", "", "", "", []⟩ : Product).usb_hub = true :=
  ((claim_C10 ["sku", "name", "specs/usb_hub"]
      [("sku", some "s"), ("name", some "n"), ("specs/usb_hub", some "false")]
      ⟨"s", "n", "", "", [], "", "", "", "", "", true, "", "", "", "", "", []⟩
      (by rfl)).2.1 (by rfl))

/-- C2: `populate_knowledge_base` / `populate_products` are idempotent —
a second call with the same records leaves the collection's entry count
unchanged — because the whole operation is a no-op (not a merge)
whenever the collection already holds at least one entry. -/
theorem claim_C2 : ∀ (items : List KnowledgeItem) (prods : List Product)
    (stK : List (VectorDB.ChromaEntry VectorDB.KMeta))
    (stP : List (VectorDB.ChromaEntry VectorDB.PMeta)),
    (VectorDB.populate_knowledge_base items
        (VectorDB.populate_knowledge_base items stK)).length =
      (VectorDB.populate_knowledge_base items stK).length
  ∧ (VectorDB.populate_products prods
        (VectorDB.populate_products prods stP)).length =
      (VectorDB.populate_products prods stP).length
  ∧ (0 < stK.length → VectorDB.populate_knowledge_base items stK = stK)
  ∧ (0 < stP.length → VectorDB.populate_products prods stP = stP) := by
  intro items prods stK stP
  refine ⟨?_, ?_, ?_, ?_⟩
  · cases stK with
    | nil => cases items <;> simp [VectorDB.populate_knowledge_base]
    | cons e es => simp [VectorDB.populate_knowledge_base]
  · cases stP with
    | nil => cases prods <;> simp [VectorDB.populate_products]
    | cons e es => simp [VectorDB.populate_products]
  · intro hpos
    cases stK with
    | nil => simp at hpos
    | cons e es => simp [VectorDB.populate_knowledge_base]
  · intro hpos
    cases stP with
    | nil => simp at hpos
    | cons e es => simp [VectorDB.populate_products]

/-- Witness for C2 at singleton collection states (the populate calls
are skipped). -/
theorem claim_C2_witness :
    VectorDB.populate_knowledge_base []
        [⟨"a", "d", ⟨"a", "t", "", "", "", [], "knowledge"⟩⟩] =
      [⟨"a", "d", ⟨"a", "t", "", "", "", [], "knowledge"⟩⟩]
  ∧ VectorDB.populate_products []
        [⟨"s", "d", ⟨"s", "n", "", "", [], "", "", "", "", "", [], "product"⟩⟩] =
      [⟨"s", "d", ⟨"s", "n", "", "", [], "", "", "", "", "", [], "product"⟩⟩] :=
  ⟨(claim_C2 [] [] [⟨"a", "d", ⟨"a", "t", "", "", "", [], "knowledge"⟩⟩]
      [⟨"s", "d", ⟨"s", "n", "", "", [], "", "", "", "", "", [], "product"⟩⟩]).2.2.1
      (by decide),
   (claim_C2 [] [] [⟨"a", "d", ⟨"a", "t", "", "", "", [], "knowledge"⟩⟩]
      [⟨"s", "d", ⟨"s", "n", "", "", [], "", "", "", "", "", [], "product"⟩⟩]).2.2.2
      (by decide)⟩

/-- C7: `detect_intent` is a pure function on the lowercased message,
checking substring membership against fixed keyword sets in the priority
order order, product, handover, FAQ — first match wins — and returning
the default `general` when no keyword matches; the spec's five example
messages classify as stated. -/
theorem claim_C7 : ∀ m : String,
    (JTCGAgentFunctions.order_hit m = true →
      JTCGAgentFunctions.detect_intent m = "order")
  ∧ (JTCGAgentFunctions.order_hit m = false →
      JTCGAgentFunctions.product_hit m = true →
      JTCGAgentFunctions.detect_intent m = "product")
  ∧ (JTCGAgentFunctions.order_hit m = false →
      JTCGAgentFunctions.product_hit m = false →
      JTCGAgentFunctions.handover_hit m = true →
      JTCGAgentFunctions.detect_intent m = "handover")
  ∧ (JTCGAgentFunctions.order_hit m = false →
      JTCGAgentFunctions.product_hit m = false →
      JTCGAgentFunctions.handover_hit m = false →
      JTCGAgentFunctions.faq_hit m = true →
      JTCGAgentFunctions.detect_intent m = "faq")
  ∧ (JTCGAgentFunctions.order_hit m = false →
      JTCGAgentFunctions.product_hit m = false →
      JTCGAgentFunctions.handover_hit m = false →
      JTCGAgentFunctions.faq_hit m = false →
      JTCGAgentFunctions.detect_intent m = "general")
  ∧ JTCGAgentFunctions.detect_intent "請問我的訂單到了嗎" = "order"
  ∧ JTCGAgentFunctions.detect_intent "有推薦的螢幕支架嗎" = "product"
  ∧ JTCGAgentFunctions.detect_intent "可以轉真人客服嗎" = "handover"
  ∧ JTCGAgentFunctions.detect_intent "退換貨政策是什麼" = "faq"
  ∧ JTCGAgentFunctions.detect_intent "今天天氣如何" = "general" := by
  intro m
  refine ⟨?_, ?_, ?_, ?_, ?_, by decide, by decide, by decide, by decide, by decide⟩
  · intro h1
    simp only [JTCGAgentFunctions.order_hit] at h1
    simp [JTCGAgentFunctions.detect_intent, h1]
  · intro h1 h2
    simp only [JTCGAgentFunctions.order_hit, JTCGAgentFunctions.product_hit] at h1 h2
    simp [JTCGAgentFunctions.detect_intent, h1, h2]
  · intro h1 h2 h3
    simp only [JTCGAgentFunctions.order_hit, JTCGAgentFunctions.product_hit,
      JTCGAgentFunctions.handover_hit] at h1 h2 h3
    simp [JTCGAgentFunctions.detect_intent, h1, h2, h3]
  · intro h1 h2 h3 h4
    simp only [JTCGAgentFunctions.order_hit, JTCGAgentFunctions.product_hit,
      JTCGAgentFunctions.handover_hit, JTCGAgentFunctions.faq_hit] at h1 h2 h3 h4
    simp [JTCGAgentFunctions.detect_intent, h1, h2, h3, h4]
  · intro h1 h2 h3 h4
    simp only [JTCGAgentFunctions.order_hit, JTCGAgentFunctions.product_hit,
      JTCGAgentFunctions.handover_hit, JTCGAgentFunctions.faq_hit] at h1 h2 h3 h4
    simp [JTCGAgentFunctions.detect_intent, h1, h2, h3, h4]

/-- Witness for C7: the order-keyword branch fires on the first example
message. -/
theorem claim_C7_witness :
    JTCGAgentFunctions.detect_intent "請問我的訂單到了嗎" = "order" :=
  (claim_C7 "請問我的訂單到了嗎").1 (by decide)

/-- C8 counterexample: for the one-user mapping M whose user key is the
literal `orders_db` (with zero orders), loading the wrapped form
`{orders_db: M}` parses the table, while loading M directly misreads the
inner value as the whole database and raises — the two load results
differ. -/
theorem claim_C8_counterexample :
    DataProcessor.load_orders_from_json
        (.vdict [("orders_db", .vdict [("orders_db", .vdict [("orders", .vlist [])])])])
      ≠ DataProcessor.load_orders_from_json
        (.vdict [("orders_db", .vdict [("orders", .vlist [])])]) := by
  intro h
  rw [show DataProcessor.load_orders_from_json
        (.vdict [("orders_db", .vdict [("orders_db", .vdict [("orders", .vlist [])])])]) =
      Except.ok [("orders_db", ([] : List Order))] from rfl] at h
  rw [show DataProcessor.load_orders_from_json
        (.vdict [("orders_db", .vdict [("orders", .vlist [])])]) =
      Except.error "TypeError: user entry is not a dict" from rfl] at h
  exact Except.noConfusion h

/-- C8 (amended): for every orders mapping M of shape
`user_id → {orders: [...]}` that does not itself contain the top-level
key `orders_db`, loading the wrapped form `{orders_db: M}` with
`load_orders_from_json` produces exactly the same parsed orders table as
loading M directly. -/
theorem claim_C8 : ∀ (M : List (String × PyVal)),
    M.lookup "orders_db" = none →
    DataProcessor.load_orders_from_json (.vdict [("orders_db", .vdict M)]) =
      DataProcessor.load_orders_from_json (.vdict M) := by
  intro M h
  simp [DataProcessor.load_orders_from_json, List.lookup, h]

/-- Witness for C8 at a concrete one-user mapping without an `orders_db`
key. -/
theorem claim_C8_witness :
    DataProcessor.load_orders_from_json
        (.vdict [("orders_db", .vdict [("u1", .vdict [("orders", .vlist [])])])]) =
      DataProcessor.load_orders_from_json
        (.vdict [("u1", .vdict [("orders", .vlist [])])]) :=
  claim_C8 [("u1", .vdict [("orders", .vlist [])])] rfl

/-- C9: a conversation id generated by `handover_to_human` when none is
supplied — `JTCG-CHAT-` plus the first 8 characters of a fresh uuid
string — never uppercases to a string starting with `FAIL`, so the mock
transport's simulated-failure branch is unreachable from real identifier
generation (`_mock_api_call` returns true on such an id whenever failure
is not forced). -/
theorem claim_C9 : ∀ (fresh_uuid email summary : String),
    list_has_pfx "FAIL".data
        (py_upper (JTCGAgentFunctions.resolve_conversation_id fresh_uuid none)).data
      = false
  ∧ mock_api_call
        [("conversation_id",
          .vstr (JTCGAgentFunctions.resolve_conversation_id fresh_uuid none)),
         ("email", .vstr email),
         ("summary", .vstr (summary.take 500))] false = true := by
  intro fresh_uuid email summary
  simp only [JTCGAgentFunctions.resolve_conversation_id]
  generalize fresh_uuid.take 8 = t
  have key : list_has_pfx "FAIL".data
      (py_upper ("JTCG-CHAT-" ++ t)).data = false := by
    have h : (py_upper ("JTCG-CHAT-" ++ t)).data =
        'J' :: (("TCG-CHAT-".data ++ t.data).map Char.toUpper) := by
      show (("JTCG-CHAT-" ++ t).data.map Char.toUpper) = _
      rw [String.data_append]
      rfl
    rw [h]
    rfl
  refine ⟨key, ?_⟩
  show mock_api_call _ false = true
  simp [mock_api_call, List.lookup, key]

/-- C6: the email validator accepts `user@example.com` and rejects
`bad-email`, the empty string, and strings with whitespace around `@`;
`handover_to_human` with a valid email and a normal (non-empty,
non-`FAIL`-marked) conversation id returns `success: true` echoing the
same conversation id, and with an invalid email returns `success: false`
without invoking the handover transport (its result is independent of
the transport). -/
theorem claim_C6 :
    email_re_match "user@example.com" = true
  ∧ email_re_match "bad-email" = false
  ∧ email_re_match "" = false
  ∧ email_re_match "a @b.com" = false
  ∧ email_re_match "a@ b.com" = false
  ∧ (∀ (fresh_uuid email summary cid : String),
      email_re_match email = true →
      cid ≠ "" →
      list_has_pfx "FAIL".data (py_upper cid).data = false →
      (JTCGAgentFunctions.handover_to_human
          (fun c e s => .ok (handover_simple c e s false))
          fresh_uuid email summary (some cid)).lookup "success"
        = some (.vbool true)
      ∧ (JTCGAgentFunctions.handover_to_human
          (fun c e s => .ok (handover_simple c e s false))
          fresh_uuid email summary (some cid)).lookup "conversation_id"
        = some (.vstr cid))
  ∧ (∀ (t1 t2 : String → String → String → Except String String)
       (fresh_uuid email summary : String) (cid : Option String),
      email_re_match email = false →
      JTCGAgentFunctions.handover_to_human t1 fresh_uuid email summary cid =
        JTCGAgentFunctions.handover_to_human t2 fresh_uuid email summary cid
      ∧ (JTCGAgentFunctions.handover_to_human t1 fresh_uuid email summary cid).lookup "success"
        = some (.vbool false)) := by
  refine ⟨by decide, by decide, by decide, by decide, by decide, ?_, ?_⟩
  · intro fresh_uuid email summary cid hmail hcid hfail
    have hres : JTCGAgentFunctions.resolve_conversation_id fresh_uuid (some cid) = cid := by
      simp [JTCGAgentFunctions.resolve_conversation_id, hcid]
    constructor <;>
      simp [JTCGAgentFunctions.handover_to_human, hres, hmail, handover_simple,
        mock_api_call, List.lookup, hfail]
  · intro t1 t2 fresh_uuid email summary cid hmail
    constructor
    · simp [JTCGAgentFunctions.handover_to_human, hmail]
    · simp [JTCGAgentFunctions.handover_to_human, hmail, List.lookup]

/-- Witness for C6: a concrete valid-email handover succeeds, a concrete
invalid-email handover fails. -/
theorem claim_C6_witness :
    (JTCGAgentFunctions.handover_to_human
        (fun c e s => .ok (handover_simple c e s false))
        "x" "user@example.com" "sum" (some "JTCG-CHAT-1")).lookup "success"
      = some (.vbool true)
  ∧ (JTCGAgentFunctions.handover_to_human
        (fun c e s => .ok (handover_simple c e s false))
        "x" "bad-email" "sum" (some "JTCG-CHAT-1")).lookup "success"
      = some (.vbool false) :=
  ⟨(claim_C6.2.2.2.2.2.1 "x" "user@example.com" "sum" "JTCG-CHAT-1"
      (by decide) (by decide) (by decide)).1,
   (claim_C6.2.2.2.2.2.2 (fun c e s => .ok (handover_simple c e s false))
      (fun c e s => .ok (handover_simple c e s false))
      "x" "bad-email" "sum" (some "JTCG-CHAT-1") (by decide)).2⟩

instance chroma_rank_total (α : Type) :
    IsTotal (VectorDB.ChromaEntry α × Int) (fun a b => a.2 ≤ b.2) :=
  ⟨fun a b => Int.le_total a.2 b.2⟩

instance chroma_rank_trans (α : Type) :
    IsTrans (VectorDB.ChromaEntry α × Int) (fun a b => a.2 ≤ b.2) :=
  ⟨fun _ _ _ hab hbc => le_trans hab hbc⟩

/-- A query returns at most `n_results` hits. -/
lemma chroma_query_length_le {α : Type} (dist : String → String → Int)
    (th : Option Int) (entries : List (VectorDB.ChromaEntry α))
    (q : String) (k : Nat) :
    (VectorDB.chroma_query dist th entries q k).length ≤ k := by
  simp only [VectorDB.chroma_query]
  exact List.length_take_le _ _

/-- A query's hits are ranked ascending by distance. -/
lemma chroma_query_pairwise {α : Type} (dist : String → String → Int)
    (th : Option Int) (entries : List (VectorDB.ChromaEntry α))
    (q : String) (k : Nat) :
    List.Pairwise (fun (a b : VectorDB.ChromaEntry α × Int) => a.2 ≤ b.2)
      (VectorDB.chroma_query dist th entries q k) := by
  simp only [VectorDB.chroma_query]
  refine List.Pairwise.sublist (List.take_sublist _ _) ?_
  exact List.sorted_insertionSort _ _

/-- Querying an empty collection yields no hits. -/
lemma chroma_query_nil {α : Type} (dist : String → String → Int)
    (th : Option Int) (q : String) (k : Nat) :
    VectorDB.chroma_query dist th ([] : List (VectorDB.ChromaEntry α)) q k = [] := by
  cases th <;> simp [VectorDB.chroma_query, List.insertionSort]

/-- When no entry clears the threshold, a query yields no hits. -/
lemma chroma_query_all_above {α : Type} (dist : String → String → Int)
    (t : Int) (entries : List (VectorDB.ChromaEntry α)) (q : String) (k : Nat)
    (h : ∀ e ∈ entries, t < dist q e.doc) :
    VectorDB.chroma_query dist (some t) entries q k = [] := by
  simp only [VectorDB.chroma_query]
  have hf : (entries.map (fun e => (e, dist q e.doc))).filter
      (fun r => decide (r.2 ≤ t)) = [] := by
    refine List.filter_eq_nil_iff.mpr ?_
    rintro r hr
    simp only [List.mem_map] at hr
    obtain ⟨e, he, rfl⟩ := hr
    simp only [decide_eq_true_eq]
    exact not_le.mpr (h e he)
  rw [hf]
  simp [List.insertionSort]

/-- C1: for every non-empty query and positive bound k, `search_knowledge`
and `search_products` return at most k results ranked in non-decreasing
order of distance, and return the empty list (never an error) when the
collection has zero entries or when no entry clears the index's
threshold. -/
theorem claim_C1 : ∀ (dist : String → String → Int) (threshold : Option Int)
    (entriesK : List (VectorDB.ChromaEntry VectorDB.KMeta))
    (entriesP : List (VectorDB.ChromaEntry VectorDB.PMeta))
    (q : String) (k : Nat), q ≠ "" → 0 < k →
    ((VectorDB.search_knowledge dist threshold entriesK q k).length ≤ k
     ∧ List.Pairwise (fun a b => a.distance ≤ b.distance)
         (VectorDB.search_knowledge dist threshold entriesK q k)
     ∧ (entriesK = [] → VectorDB.search_knowledge dist threshold entriesK q k = [])
     ∧ (∀ t, threshold = some t → (∀ e ∈ entriesK, t < dist q e.doc) →
          VectorDB.search_knowledge dist threshold entriesK q k = []))
  ∧ ((VectorDB.search_products dist threshold entriesP q k).length ≤ k
     ∧ List.Pairwise (fun a b => a.distance ≤ b.distance)
         (VectorDB.search_products dist threshold entriesP q k)
     ∧ (entriesP = [] → VectorDB.search_products dist threshold entriesP q k = [])
     ∧ (∀ t, threshold = some t → (∀ e ∈ entriesP, t < dist q e.doc) →
          VectorDB.search_products dist threshold entriesP q k = [])) := by
  intro dist threshold entriesK entriesP q k _ _
  constructor
  · refine ⟨?_, ?_, ?_, ?_⟩
    · simp only [VectorDB.search_knowledge, List.length_map]
      exact chroma_query_length_le dist threshold entriesK q k
    · simp only [VectorDB.search_knowledge]
      rw [List.pairwise_map]
      exact chroma_query_pairwise dist threshold entriesK q k
    · intro h
      subst h
      simp only [VectorDB.search_knowledge, chroma_query_nil, List.map_nil]
    · intro t ht hall
      subst ht
      simp only [VectorDB.search_knowledge,
        chroma_query_all_above dist t entriesK q k hall, List.map_nil]
  · refine ⟨?_, ?_, ?_, ?_⟩
    · simp only [VectorDB.search_products, List.length_map]
      exact chroma_query_length_le dist threshold entriesP q k
    · simp only [VectorDB.search_products]
      rw [List.pairwise_map]
      exact chroma_query_pairwise dist threshold entriesP q k
    · intro h
      subst h
      simp only [VectorDB.search_products, chroma_query_nil, List.map_nil]
    · intro t ht hall
      subst ht
      simp only [VectorDB.search_products,
        chroma_query_all_above dist t entriesP q k hall, List.map_nil]

/-- Witness for C1: searching empty collections with a non-empty query
and positive bounds returns the empty list. -/
theorem claim_C1_witness :
    VectorDB.search_knowledge (fun _ _ => 0) none [] "安裝" 3 = []
  ∧ VectorDB.search_products (fun _ _ => 0) none [] "支架" 5 = [] :=
  ⟨(claim_C1 (fun _ _ => 0) none [] [] "安裝" 3 (by decide) (by decide)).1.2.2.1 rfl,
   (claim_C1 (fun _ _ => 0) none [] [] "支架" 5 (by decide) (by decide)).2.2.2.1 rfl⟩

/-- Collecting the names of item dicts that all carry a string `name`
succeeds. -/
lemma get_item_names_ok {items : List PyDict}
    (h : ∀ it ∈ items, ∃ s, it.lookup "name" = some (.vstr s)) :
    ∃ names, JTCGAgentFunctions.get_item_names items = Except.ok names := by
  induction items with
  | nil => exact ⟨[], rfl⟩
  | cons it rest ih =>
    obtain ⟨s, hs⟩ := h it (by simp)
    obtain ⟨names, hnames⟩ := ih (fun x hx => h x (by simp [hx]))
    refine ⟨s :: names, ?_⟩
    simp [JTCGAgentFunctions.get_item_names, JTCGAgentFunctions.get_item_name,
      hs, hnames, Bind.bind, Except.bind]

/-- Rendering one order succeeds when all its items carry a string
name. -/
lemma render_user_order_ok (i : Nat) (o : Order)
    (h : ∀ it ∈ o.items, ∃ s, it.lookup "name" = some (.vstr s)) :
    ∃ s, JTCGAgentFunctions.render_user_order i o = .ok s := by
  obtain ⟨names, hn⟩ := get_item_names_ok h
  simp only [JTCGAgentFunctions.render_user_order, hn, Bind.bind, Except.bind]
  exact ⟨_, rfl⟩

/-- Rendering a list of orders succeeds when all items carry a string
name. -/
lemma render_user_orders_ok (i : Nat) (os : List Order)
    (h : ∀ o ∈ os, ∀ it ∈ o.items, ∃ s, it.lookup "name" = some (.vstr s)) :
    ∃ s, JTCGAgentFunctions.render_user_orders i os = .ok s := by
  induction os generalizing i with
  | nil => exact ⟨"", rfl⟩
  | cons o rest ih =>
    obtain ⟨s1, h1⟩ := render_user_order_ok i o (h o (by simp))
    obtain ⟨s2, h2⟩ := ih (i + 1) (fun x hx => h x (by simp [hx]))
    simp only [JTCGAgentFunctions.render_user_orders, h1, h2, Bind.bind, Except.bind]
    exact ⟨_, rfl⟩

/-- C5 counterexample: for a user present in the orders table with zero
seeded orders, `lookup_user_orders` returns `success: false`, not
`success: true` with those 0 orders. -/
theorem claim_C5_counterexample :
    ([("u1", [])] : List (String × List Order)).lookup "u1" = some []
  ∧ (JTCGAgentFunctions.lookup_user_orders [("u1", [])] "u1").lookup "success"
      = some (.vbool false)
  ∧ (JTCGAgentFunctions.lookup_user_orders [("u1", [])] "u1").lookup "success"
      ≠ some (.vbool true) := by
  refine ⟨rfl, rfl, ?_⟩
  intro h
  rw [show (JTCGAgentFunctions.lookup_user_orders [("u1", [])] "u1").lookup "success"
      = some (.vbool false) from rfl] at h
  simp at h

/-- C5 (amended): for every user id present in the orders table with
N ≥ 1 seeded orders whose items each carry a string `name`,
`lookup_user_orders` returns `success: true` with exactly those N orders
in insertion order; for a user id not present (and likewise one with
zero orders, per the counterexample) it returns `success: false` with an
empty orders list, without raising a fault. -/
theorem claim_C5 : ∀ (db : List (String × List Order)) (uid : String)
    (os : List Order),
    (db.lookup uid = some os → os ≠ [] →
      (∀ o ∈ os, ∀ it ∈ o.items, ∃ s, it.lookup "name" = some (.vstr s)) →
        (JTCGAgentFunctions.lookup_user_orders db uid).lookup "success"
          = some (.vbool true)
      ∧ (JTCGAgentFunctions.lookup_user_orders db uid).lookup "orders"
          = some (.vlist (os.map JTCGAgentFunctions.order_to_py))
      ∧ (JTCGAgentFunctions.lookup_user_orders db uid).lookup "total_orders"
          = some (.vint os.length))
  ∧ (db.lookup uid = none →
        (JTCGAgentFunctions.lookup_user_orders db uid).lookup "success"
          = some (.vbool false)
      ∧ (JTCGAgentFunctions.lookup_user_orders db uid).lookup "orders"
          = some (.vlist [])) := by
  intro db uid os
  constructor
  · intro hlook hne hnames
    have hgotten : DataProcessor.get_orders_by_user_id db uid = os := by
      simp [DataProcessor.get_orders_by_user_id, hlook]
    cases os with
    | nil => exact absurd rfl hne
    | cons o rest =>
      obtain ⟨s, hs⟩ := render_user_orders_ok 1 (o :: rest) hnames
      refine ⟨?_, ?_, ?_⟩ <;>
        simp [JTCGAgentFunctions.lookup_user_orders,
          JTCGAgentFunctions.lookup_user_orders_body, hgotten, hs,
          Bind.bind, Except.bind, List.lookup]
  · intro hlook
    have hgotten : DataProcessor.get_orders_by_user_id db uid = [] := by
      simp [DataProcessor.get_orders_by_user_id, hlook]
    constructor <;>
      simp [JTCGAgentFunctions.lookup_user_orders,
        JTCGAgentFunctions.lookup_user_orders_body, hgotten, List.lookup]

/-- Witness for C5 at a concrete one-order table and a concrete unknown
user. -/
theorem claim_C5_witness :
    (JTCGAgentFunctions.lookup_user_orders [("u1", [sample_order])] "u1").lookup "success"
      = some (.vbool true)
  ∧ (JTCGAgentFunctions.lookup_user_orders [("u1", [sample_order])] "zz").lookup "success"
      = some (.vbool false) :=
  ⟨((claim_C5 [("u1", [sample_order])] "u1" [sample_order]).1
      rfl (by simp) (by simp [sample_order, List.lookup])).1,
   ((claim_C5 [("u1", [sample_order])] "zz" []).2 rfl).1⟩

/-- Every successful `lookup_user_orders` body carries `success` and
`message` keys. -/
lemma lookup_user_orders_body_shape {db : List (String × List Order)}
    {uid : String} {d : PyDict}
    (h : JTCGAgentFunctions.lookup_user_orders_body db uid = .ok d) :
    (∃ b, d.lookup "success" = some (.vbool b))
    ∧ (∃ m, d.lookup "message" = some (.vstr m)) := by
  cases ho : DataProcessor.get_orders_by_user_id db uid with
  | nil =>
      simp only [JTCGAgentFunctions.lookup_user_orders_body, ho,
        Except.ok.injEq] at h
      subst h
      exact ⟨⟨false, rfl⟩, ⟨_, rfl⟩⟩
  | cons o os =>
      simp only [JTCGAgentFunctions.lookup_user_orders_body, ho, Bind.bind,
        Except.bind] at h
      cases hr : JTCGAgentFunctions.render_user_orders 1 (o :: os) with
      | error e => rw [hr] at h; simp at h
      | ok s =>
          rw [hr] at h
          simp only [Except.ok.injEq] at h
          subst h
          exact ⟨⟨true, rfl⟩, ⟨_, rfl⟩⟩

/-- Every successful `lookup_order_details` body carries `success` and
`message` keys. -/
lemma lookup_order_details_body_shape {db : List (String × List Order)}
    {oid : String} {d : PyDict}
    (h : JTCGAgentFunctions.lookup_order_details_body db oid = .ok d) :
    (∃ b, d.lookup "success" = some (.vbool b))
    ∧ (∃ m, d.lookup "message" = some (.vstr m)) := by
  cases ho : DataProcessor.get_order_by_id db oid with
  | none =>
      simp only [JTCGAgentFunctions.lookup_order_details_body, ho,
        Except.ok.injEq] at h
      subst h
      exact ⟨⟨false, rfl⟩, ⟨_, rfl⟩⟩
  | some o =>
      simp only [JTCGAgentFunctions.lookup_order_details_body, ho, Bind.bind,
        Except.bind] at h
      cases hr : JTCGAgentFunctions.render_order_items o.items with
      | error e => rw [hr] at h; simp at h
      | ok lines =>
          rw [hr] at h
          simp only [Except.ok.injEq] at h
          subst h
          exact ⟨⟨true, rfl⟩, ⟨_, rfl⟩⟩

/-- C4: every capability handler (`search_knowledge_base`,
`search_products`, `lookup_user_orders`, `lookup_order_details`,
`handover_to_human`) returns a mapping with at least `success: bool` and
`message: string`; an exception raised in the handler body is caught at
the handler boundary and converted to `success: false`, the localized
failure message, and the raw error string under `error` — never
propagated as a raised fault (each handler is a total function into a
result dict). -/
theorem claim_C4 :
    (∀ (sfn : String → Nat → Except String (List VectorDB.KResult))
       (kb : List KnowledgeItem) (q : String) (k : Nat),
        (∃ b, (JTCGAgentFunctions.search_knowledge_base sfn kb q k).lookup "success" = some (.vbool b))
      ∧ (∃ m, (JTCGAgentFunctions.search_knowledge_base sfn kb q k).lookup "message" = some (.vstr m))
      ∧ (∀ e, sfn q k = .error e →
          (JTCGAgentFunctions.search_knowledge_base sfn kb q k).lookup "success" = some (.vbool false)
          ∧ (JTCGAgentFunctions.search_knowledge_base sfn kb q k).lookup "error" = some (.vstr e)
          ∧ (JTCGAgentFunctions.search_knowledge_base sfn kb q k).lookup "message"
              = some (.vstr "搜尋時發生錯誤，請稍後再試或聯繫客服團隊。")))
  ∧ (∀ (sfn : String → Nat → Except String (List VectorDB.PResult))
       (q : String) (specs : Option (List (String × String))) (k : Nat),
        (∃ b, (JTCGAgentFunctions.search_products sfn q specs k).lookup "success" = some (.vbool b))
      ∧ (∃ m, (JTCGAgentFunctions.search_products sfn q specs k).lookup "message" = some (.vstr m))
      ∧ (∀ e, sfn (JTCGAgentFunctions.enhanced_query_of q specs) k = .error e →
          (JTCGAgentFunctions.search_products sfn q specs k).lookup "success" = some (.vbool false)
          ∧ (JTCGAgentFunctions.search_products sfn q specs k).lookup "error" = some (.vstr e)
          ∧ (JTCGAgentFunctions.search_products sfn q specs k).lookup "message"
              = some (.vstr "產品搜尋時發生錯誤，請稍後再試或聯繫客服團隊。")))
  ∧ (∀ (db : List (String × List Order)) (uid : String),
        (∃ b, (JTCGAgentFunctions.lookup_user_orders db uid).lookup "success" = some (.vbool b))
      ∧ (∃ m, (JTCGAgentFunctions.lookup_user_orders db uid).lookup "message" = some (.vstr m))
      ∧ (∀ e, JTCGAgentFunctions.lookup_user_orders_body db uid = .error e →
          (JTCGAgentFunctions.lookup_user_orders db uid).lookup "success" = some (.vbool false)
          ∧ (JTCGAgentFunctions.lookup_user_orders db uid).lookup "error" = some (.vstr e)
          ∧ (JTCGAgentFunctions.lookup_user_orders db uid).lookup "message"
              = some (.vstr "查詢訂單時發生錯誤，請稍後再試或聯繫客服團隊。")))
  ∧ (∀ (db : List (String × List Order)) (oid : String),
        (∃ b, (JTCGAgentFunctions.lookup_order_details db oid).lookup "success" = some (.vbool b))
      ∧ (∃ m, (JTCGAgentFunctions.lookup_order_details db oid).lookup "message" = some (.vstr m))
      ∧ (∀ e, JTCGAgentFunctions.lookup_order_details_body db oid = .error e →
          (JTCGAgentFunctions.lookup_order_details db oid).lookup "success" = some (.vbool false)
          ∧ (JTCGAgentFunctions.lookup_order_details db oid).lookup "error" = some (.vstr e)
          ∧ (JTCGAgentFunctions.lookup_order_details db oid).lookup "message"
              = some (.vstr "查詢訂單詳情時發生錯誤，請稍後再試或聯繫客服團隊。")))
  ∧ (∀ (transport : String → String → String → Except String String)
       (fresh_uuid email summary : String) (cid : Option String),
        (∃ b, (JTCGAgentFunctions.handover_to_human transport fresh_uuid email summary cid).lookup "success" = some (.vbool b))
      ∧ (∃ m, (JTCGAgentFunctions.handover_to_human transport fresh_uuid email summary cid).lookup "message" = some (.vstr m))
      ∧ (∀ e, email_re_match email = true →
          transport (JTCGAgentFunctions.resolve_conversation_id fresh_uuid cid) email summary = .error e →
          (JTCGAgentFunctions.handover_to_human transport fresh_uuid email summary cid).lookup "success" = some (.vbool false)
          ∧ (JTCGAgentFunctions.handover_to_human transport fresh_uuid email summary cid).lookup "error" = some (.vstr e)
          ∧ (JTCGAgentFunctions.handover_to_human transport fresh_uuid email summary cid).lookup "message"
              = some (.vstr "轉接真人客服時發生錯誤，請聯繫技術團隊協助。"))) := by
  refine ⟨?_, ?_, ?_, ?_, ?_⟩
  · intro sfn kb q k
    refine ⟨?_, ?_, ?_⟩
    · cases hres : sfn q k with
      | error e =>
          exact ⟨false, by simp [JTCGAgentFunctions.search_knowledge_base, hres,
            JTCGAgentFunctions.sk_error_dict, List.lookup]⟩
      | ok results =>
          cases results with
          | nil =>
              exact ⟨false, by simp [JTCGAgentFunctions.search_knowledge_base, hres,
                List.lookup]⟩
          | cons best rest =>
              exact ⟨true, by simp [JTCGAgentFunctions.search_knowledge_base, hres,
                List.lookup]⟩
    · cases hres : sfn q k with
      | error e =>
          exact ⟨"搜尋時發生錯誤，請稍後再試或聯繫客服團隊。",
            by simp [JTCGAgentFunctions.search_knowledge_base, hres,
              JTCGAgentFunctions.sk_error_dict, List.lookup]⟩
      | ok results =>
          cases results with
          | nil =>
              exact ⟨"很抱歉，目前無法找到相關的資訊。建議您聯繫我們的客服團隊以獲得進一步協助。",
                by simp [JTCGAgentFunctions.search_knowledge_base, hres, List.lookup]⟩
          | cons best rest =>
              exact ⟨String.join (JTCGAgentFunctions.kb_response_parts
                  (DataProcessor.get_knowledge_by_id kb best.id)),
                by simp [JTCGAgentFunctions.search_knowledge_base, hres, List.lookup]⟩
    · intro e he
      refine ⟨?_, ?_, ?_⟩ <;>
        simp [JTCGAgentFunctions.search_knowledge_base, he,
          JTCGAgentFunctions.sk_error_dict, List.lookup]
  · intro sfn q specs k
    refine ⟨?_, ?_, ?_⟩
    · cases hres : sfn (JTCGAgentFunctions.enhanced_query_of q specs) k with
      | error e =>
          exact ⟨false, by simp [JTCGAgentFunctions.search_products, hres,
            JTCGAgentFunctions.sp_error_dict, List.lookup]⟩
      | ok results =>
          cases results with
          | nil =>
              exact ⟨false, by simp [JTCGAgentFunctions.search_products, hres,
                List.lookup]⟩
          | cons best rest =>
              exact ⟨true, by simp [JTCGAgentFunctions.search_products, hres,
                List.lookup]⟩
    · cases hres : sfn (JTCGAgentFunctions.enhanced_query_of q specs) k with
      | error e =>
          exact ⟨"產品搜尋時發生錯誤，請稍後再試或聯繫客服團隊。",
            by simp [JTCGAgentFunctions.search_products, hres,
              JTCGAgentFunctions.sp_error_dict, List.lookup]⟩
      | ok results =>
          cases results with
          | nil =>
              exact ⟨"很抱歉，沒有找到符合您需求的產品。請提供更多資訊，如螢幕尺寸、VESA規格或使用情境，以便我為您推薦合適的產品。",
                by simp [JTCGAgentFunctions.search_products, hres, List.lookup]⟩
          | cons best rest =>
              exact ⟨"以下是為您推薦的產品：\n"
                  ++ JTCGAgentFunctions.render_products 1
                      (((best :: rest).map JTCGAgentFunctions.prod_info_of).take 3)
                  ++ "\n如需更詳細的建議，請告訴我您的螢幕尺寸、桌面厚度或特殊需求。",
                by simp [JTCGAgentFunctions.search_products, hres, List.lookup]⟩
    · intro e he
      refine ⟨?_, ?_, ?_⟩ <;>
        simp [JTCGAgentFunctions.search_products, he,
          JTCGAgentFunctions.sp_error_dict, List.lookup]
  · intro db uid
    refine ⟨?_, ?_, ?_⟩
    · cases hb : JTCGAgentFunctions.lookup_user_orders_body db uid with
      | error e =>
          exact ⟨false, by simp [JTCGAgentFunctions.lookup_user_orders, hb, List.lookup]⟩
      | ok d =>
          obtain ⟨⟨b, hbb⟩, _⟩ := lookup_user_orders_body_shape hb
          exact ⟨b, by simp only [JTCGAgentFunctions.lookup_user_orders, hb]; exact hbb⟩
    · cases hb : JTCGAgentFunctions.lookup_user_orders_body db uid with
      | error e =>
          exact ⟨"查詢訂單時發生錯誤，請稍後再試或聯繫客服團隊。",
            by simp [JTCGAgentFunctions.lookup_user_orders, hb, List.lookup]⟩
      | ok d =>
          obtain ⟨_, ⟨m, hm⟩⟩ := lookup_user_orders_body_shape hb
          exact ⟨m, by simp only [JTCGAgentFunctions.lookup_user_orders, hb]; exact hm⟩
    · intro e he
      refine ⟨?_, ?_, ?_⟩ <;>
        simp [JTCGAgentFunctions.lookup_user_orders, he, List.lookup]
  · intro db oid
    refine ⟨?_, ?_, ?_⟩
    · cases hb : JTCGAgentFunctions.lookup_order_details_body db oid with
      | error e =>
          exact ⟨false, by simp [JTCGAgentFunctions.lookup_order_details, hb, List.lookup]⟩
      | ok d =>
          obtain ⟨⟨b, hbb⟩, _⟩ := lookup_order_details_body_shape hb
          exact ⟨b, by simp only [JTCGAgentFunctions.lookup_order_details, hb]; exact hbb⟩
    · cases hb : JTCGAgentFunctions.lookup_order_details_body db oid with
      | error e =>
          exact ⟨"查詢訂單詳情時發生錯誤，請稍後再試或聯繫客服團隊。",
            by simp [JTCGAgentFunctions.lookup_order_details, hb, List.lookup]⟩
      | ok d =>
          obtain ⟨_, ⟨m, hm⟩⟩ := lookup_order_details_body_shape hb
          exact ⟨m, by simp only [JTCGAgentFunctions.lookup_order_details, hb]; exact hm⟩
    · intro e he
      refine ⟨?_, ?_, ?_⟩ <;>
        simp [JTCGAgentFunctions.lookup_order_details, he, List.lookup]
  · intro transport fresh_uuid email summary cid
    refine ⟨?_, ?_, ?_⟩
    · cases hmail : email_re_match email with
      | false =>
          exact ⟨false, by simp [JTCGAgentFunctions.handover_to_human, hmail, List.lookup]⟩
      | true =>
          cases ht : transport (JTCGAgentFunctions.resolve_conversation_id fresh_uuid cid)
              email summary with
          | error e =>
              exact ⟨false, by simp [JTCGAgentFunctions.handover_to_human, hmail, ht,
                List.lookup]⟩
          | ok r =>
              by_cases hr : r = "已為您轉接真人"
              · exact ⟨true, by simp [JTCGAgentFunctions.handover_to_human, hmail, ht, hr,
                  List.lookup]⟩
              · exact ⟨false, by simp [JTCGAgentFunctions.handover_to_human, hmail, ht, hr,
                  List.lookup]⟩
    · cases hmail : email_re_match email with
      | false =>
          exact ⟨"請提供有效的Email地址以便我們為您轉接真人客服。",
            by simp [JTCGAgentFunctions.handover_to_human, hmail, List.lookup]⟩
      | true =>
          cases ht : transport (JTCGAgentFunctions.resolve_conversation_id fresh_uuid cid)
              email summary with
          | error e =>
              exact ⟨"轉接真人客服時發生錯誤，請聯繫技術團隊協助。",
                by simp [JTCGAgentFunctions.handover_to_human, hmail, ht, List.lookup]⟩
          | ok r =>
              by_cases hr : r = "已為您轉接真人"
              · exact ⟨"已為您轉接真人客服，請稍候。您的服務案件編號是: "
                    ++ JTCGAgentFunctions.resolve_conversation_id fresh_uuid cid,
                  by simp [JTCGAgentFunctions.handover_to_human, hmail, ht, hr, List.lookup]⟩
              · exact ⟨r, by simp [JTCGAgentFunctions.handover_to_human, hmail, ht, hr,
                  List.lookup]⟩
    · intro e hmail ht
      refine ⟨?_, ?_, ?_⟩ <;>
        simp [JTCGAgentFunctions.handover_to_human, hmail, ht, List.lookup]

/-- Witness for C4: a transport/search failure injected into a concrete
call of each of the two search handlers is converted to `success: false`
plus the raw error string. -/
theorem claim_C4_witness :
    (JTCGAgentFunctions.search_knowledge_base (fun _ _ => .error "boom") [] "q" 3).lookup "success"
      = some (.vbool false)
  ∧ (JTCGAgentFunctions.search_knowledge_base (fun _ _ => .error "boom") [] "q" 3).lookup "error"
      = some (.vstr "boom")
  ∧ (JTCGAgentFunctions.lookup_user_orders [("u1", [{ sample_order with items := [[]] }])] "u1").lookup "success"
      = some (.vbool false) :=
  ⟨((claim_C4.1 (fun _ _ => .error "boom") [] "q" 3).2.2 "boom" rfl).1,
   ((claim_C4.1 (fun _ _ => .error "boom") [] "q" 3).2.2 "boom" rfl).2.1,
   ((claim_C4.2.2.1 [("u1", [{ sample_order with items := [[]] }])] "u1").2.2
      "KeyError: name" rfl).1⟩
